import Mathlib

/-
Verification of the stdio-to-HTTP JSON-RPC bridge (src/index.js).

The bridge reads newline-delimited JSON-RPC messages from stdin, POSTs each
to a configured HTTP endpoint, and relays the reply to stdout after
normalizing it. This file shallowly embeds the message-handling pipeline:
JSON values, JSON.parse / JSON.stringify, the per-message handler
(handleMessage), the credential builder (authHeader), and the lifecycle
state machine (pending / stdinClosed / maybeExit).

Modeling boundaries: JSON numbers are embedded as integers (no claim
involves non-integer numbers); strings are sequences of unicode scalars
rather than UTF-16 code units.
-/

namespace Bridge

/-- JSON values as produced by JSON.parse. Object fields keep insertion
order, as JavaScript objects do; duplicate keys are collapsed at parse
time exactly as JavaScript does (last value wins, first position kept). -/
inductive Json where
  | null : Json
  | bool (b : Bool) : Json
  | num (n : Int) : Json
  | str (s : String) : Json
  | arr (elems : List Json) : Json
  | obj (fields : List (String × Json)) : Json
  deriving Inhabited

/-- First-occurrence lookup of a key in an object field list. -/
def lookupField : List (String × Json) → String → Option Json
  | [], _ => none
  | (k, v) :: rest, key => if k = key then some v else lookupField rest key

/-- JavaScript property assignment on an object field list: an existing key
keeps its position and gets the new value; a fresh key is appended. -/
def setField : List (String × Json) → String → Json → List (String × Json)
  | [], k, v => [(k, v)]
  | (k0, v0) :: rest, k, v =>
    if k0 = k then (k0, v) :: rest else (k0, v0) :: setField rest k v

/-- Property read on a non-null value: fields of objects; undefined (none)
on every other value, as in JavaScript (primitives have no such field). -/
def getFieldPrim : Json → String → Option Json
  | .obj fs, k => lookupField fs k
  | _, _ => none

/-- JavaScript truthiness of a parsed JSON value. -/
def jsTruthy : Json → Bool
  | .null => false
  | .bool b => b
  | .num n => n != 0
  | .str s => s != ""
  | .arr _ => true
  | .obj _ => true

/-- Truthiness of a possibly-undefined value (undefined is falsy). -/
def jsTruthyOpt : Option Json → Bool
  | none => false
  | some v => jsTruthy v

/-- Whitespace skipping of the JSON grammar. -/
def skipWs : List Char → List Char
  | c :: cs =>
    if c = ' ' || c = '\t' || c = '\n' || c = '\r' then skipWs cs else c :: cs
  | [] => []

/-- Value of a hexadecimal digit. -/
def hexVal (c : Char) : Option Nat :=
  if '0' ≤ c ∧ c ≤ '9' then some (c.toNat - 48)
  else if 'a' ≤ c ∧ c ≤ 'f' then some (c.toNat - 87)
  else if 'A' ≤ c ∧ c ≤ 'F' then some (c.toNat - 55)
  else none

/-- Body of a JSON string literal after the opening quote: returns the
decoded characters and the input remaining after the closing quote. -/
def parseStrChars : List Char → Option (List Char × List Char)
  | [] => none
  | '"' :: rest => some ([], rest)
  | '\\' :: esc :: rest =>
    let simpleEsc : Option Char :=
      if esc = '"' then some '"'
      else if esc = '\\' then some '\\'
      else if esc = '/' then some '/'
      else if esc = 'n' then some (Char.ofNat 10)
      else if esc = 't' then some (Char.ofNat 9)
      else if esc = 'r' then some (Char.ofNat 13)
      else if esc = 'b' then some (Char.ofNat 8)
      else if esc = 'f' then some (Char.ofNat 12)
      else none
    match simpleEsc with
    | some ch =>
      match parseStrChars rest with
      | some (s, r) => some (ch :: s, r)
      | none => none
    | none =>
      if esc = 'u' then
        match rest with
        | h1 :: h2 :: h3 :: h4 :: rest2 =>
          match hexVal h1, hexVal h2, hexVal h3, hexVal h4 with
          | some a, some b, some c, some d =>
            match parseStrChars rest2 with
            | some (s, r) =>
              some (Char.ofNat (a * 4096 + b * 256 + c * 16 + d) :: s, r)
            | none => none
          | _, _, _, _ => none
        | _ => none
      else none
  | c :: rest =>
    if c.toNat < 32 then none
    else
      match parseStrChars rest with
      | some (s, r) => some (c :: s, r)
      | none => none

/-- Longest digit run at the head of the input. -/
def takeDigits : List Char → (List Char × List Char)
  | [] => ([], [])
  | c :: rest =>
    if c.isDigit then
      let p := takeDigits rest
      (c :: p.1, p.2)
    else ([], c :: rest)

/-- Numeric value of a digit run. -/
def digitsVal (ds : List Char) : Nat :=
  ds.foldl (fun a c => a * 10 + (c.toNat - 48)) 0

/-- Integer JSON number literal (fractions and exponents are outside the
model; no claim involves them). -/
def parseNumber : List Char → Option (Json × List Char)
  | '-' :: rest =>
    let p := takeDigits rest
    if p.1 = [] then none else some (.num (-(digitsVal p.1 : Int)), p.2)
  | cs =>
    let p := takeDigits cs
    if p.1 = [] then none else some (.num ((digitsVal p.1 : Int)), p.2)

mutual

/-- One JSON value; fuel bounds the nesting depth. -/
def parseVal : Nat → List Char → Option (Json × List Char)
  | 0, _ => none
  | fuel + 1, cs =>
    match skipWs cs with
    | 'n' :: 'u' :: 'l' :: 'l' :: rest => some (.null, rest)
    | 't' :: 'r' :: 'u' :: 'e' :: rest => some (.bool true, rest)
    | 'f' :: 'a' :: 'l' :: 's' :: 'e' :: rest => some (.bool false, rest)
    | '"' :: rest =>
      match parseStrChars rest with
      | some (s, r) => some (.str (String.mk s), r)
      | none => none
    | '[' :: rest =>
      match skipWs rest with
      | ']' :: r2 => some (.arr [], r2)
      | cs2 =>
        match parseElems fuel cs2 with
        | some (xs, r) => some (.arr xs, r)
        | none => none
    | '{' :: rest =>
      match skipWs rest with
      | '}' :: r2 => some (.obj [], r2)
      | cs2 =>
        match parseMembers fuel [] cs2 with
        | some (fs, r) => some (.obj fs, r)
        | none => none
    | cs1 => parseNumber cs1

/-- Comma-separated array elements up to the closing bracket. -/
def parseElems : Nat → List Char → Option (List Json × List Char)
  | 0, _ => none
  | fuel + 1, cs =>
    match parseVal fuel cs with
    | none => none
    | some (v, r) =>
      match skipWs r with
      | ',' :: r2 =>
        match parseElems fuel r2 with
        | some (xs, r3) => some (v :: xs, r3)
        | none => none
      | ']' :: r2 => some ([v], r2)
      | _ => none

/-- Comma-separated object members up to the closing brace, accumulating
with JavaScript assignment semantics for duplicate keys. -/
def parseMembers : Nat → List (String × Json) → List Char →
    Option (List (String × Json) × List Char)
  | 0, _, _ => none
  | fuel + 1, acc, cs =>
    match skipWs cs with
    | '"' :: rest =>
      match parseStrChars rest with
      | none => none
      | some (k, r) =>
        match skipWs r with
        | ':' :: r2 =>
          match parseVal fuel r2 with
          | none => none
          | some (v, r3) =>
            match skipWs r3 with
            | ',' :: r4 => parseMembers fuel (setField acc (String.mk k) v) r4
            | '}' :: r4 => some (setField acc (String.mk k) v, r4)
            | _ => none
        | _ => none
    | _ => none

end

/-- JSON.parse on a whole string: one value, then only whitespace. -/
def parseJson (s : String) : Option Json :=
  match parseVal (2 * s.length + 2) s.data with
  | some (v, rest) => if skipWs rest = [] then some v else none
  | none => none

/-- Lower-case hexadecimal digit. -/
def hexDigit (n : Nat) : Char :=
  if n < 10 then Char.ofNat (48 + n) else Char.ofNat (87 + n)

/-- JSON.stringify escaping of one character. -/
def escapeChar (c : Char) : List Char :=
  if c = '"' then ['\\', '"']
  else if c = '\\' then ['\\', '\\']
  else if c.toNat = 8 then ['\\', 'b']
  else if c.toNat = 9 then ['\\', 't']
  else if c.toNat = 10 then ['\\', 'n']
  else if c.toNat = 12 then ['\\', 'f']
  else if c.toNat = 13 then ['\\', 'r']
  else if c.toNat < 32 then
    ['\\', 'u', '0', '0', hexDigit (c.toNat / 16), hexDigit (c.toNat % 16)]
  else [c]

/-- A JSON string literal for s, quoted and escaped. -/
def quoteString (s : String) : String :=
  String.mk ('"' :: (s.data.map escapeChar).flatten ++ ['"'])

mutual

/-- JSON.stringify: compact serialization, object fields in insertion
order, no added whitespace. -/
def stringify : Json → String
  | .null => "null"
  | .bool true => "true"
  | .bool false => "false"
  | .num n => toString n
  | .str s => quoteString s
  | .arr xs => "[" ++ stringifyElems xs ++ "]"
  | .obj fs => "\x7b" ++ stringifyMembers fs ++ "\x7d"

/-- Array elements joined with commas. -/
def stringifyElems : List Json → String
  | [] => ""
  | [x] => stringify x
  | x :: xs => stringify x ++ "," ++ stringifyElems xs

/-- Object members joined with commas. -/
def stringifyMembers : List (String × Json) → String
  | [] => ""
  | [(k, v)] => quoteString k ++ ":" ++ stringify v
  | (k, v) :: fs => quoteString k ++ ":" ++ stringify v ++ "," ++ stringifyMembers fs

end

/-
The per-message handler, src/index.js lines 37-106. One inbound line is
parsed; a falsy method discards it; otherwise it is POSTed and the reply
is normalized. The HTTP outcome is a parameter: either a completed
exchange (status and body text) or a transport failure with an error
message.
-/

/-- Outcome of the single HTTP exchange for one message. -/
inductive Outcome where
  | success (status : Nat) (body : String) : Outcome
  | failure (errMessage : String) : Outcome
  deriving DecidableEq, Inhabited

/-- What one dispatched message writes: stdout lines and stderr lines
(each written with a trailing newline). -/
structure Effects where
  stdout : List String
  stderr : List String
  deriving DecidableEq, Inhabited

/-- The output stream text for a list of emitted lines: each line is
written newline-terminated. -/
def renderOut (ls : List String) : String :=
  String.join (ls.map (fun l => l ++ "\n"))

/-- The test msg.id != null (src/index.js lines 66, 77, 93): true exactly
when the parsed message has an id field whose value is not null. Loose
inequality with null excludes both null and undefined (absent). -/
def idNonNull (msg : Json) : Bool :=
  match getFieldPrim msg "id" with
  | some .null => false
  | some _ => true
  | none => false

/-- The original id of a message, read where idNonNull holds. -/
def msgId (msg : Json) : Json :=
  (getFieldPrim msg "id").getD .null

/-- parsed.id = msg.id (line 68): property assignment updates an object
in place; on a primitive the sloppy-mode assignment is silently dropped. -/
def setId (j : Json) (v : Json) : Json :=
  match j with
  | .obj fs => .obj (setField fs "id" v)
  | other => other

/-- The synthesized transport-failure error (lines 94-100). -/
def bridgeErrorObj (id : Json) (detail : String) : Json :=
  .obj [("jsonrpc", .str "2.0"), ("id", id),
        ("error", .obj [("code", .num (-32603)),
                        ("message", .str ("Bridge error: " ++ detail))])]

/-- The synthesized non-JSON-body error (lines 79-84). -/
def nonJsonErrorObj (id : Json) : Json :=
  .obj [("jsonrpc", .str "2.0"), ("id", id),
        ("error", .obj [("code", .num (-32603)),
                        ("message", .str "Server returned non-JSON response")])]

/-- body.substring(0, 200) (line 78). -/
def truncBody (b : String) : String :=
  String.mk (b.data.take 200)

/-- The catch branch for a reply body that is not usable JSON
(lines 75-87): for a request, a diagnostic on stderr and a synthesized
error on stdout; for a notification, nothing at all. -/
def nonJsonEffects (msg : Json) (body : String) : Effects :=
  if idNonNull msg then
    { stdout := [stringify (nonJsonErrorObj (msgId msg))],
      stderr := ["[bridge] Non-JSON response: " ++ truncBody body] }
  else { stdout := [], stderr := [] }

/-- Lines 65-71: the reply lacks a concrete id; a request gets the reply
re-emitted with its own id restored, a notification is dropped. -/
def repairOrDrop (msg parsed : Json) : Effects :=
  if idNonNull msg then
    { stdout := [stringify (setId parsed (msgId msg))], stderr := [] }
  else { stdout := [], stderr := [] }

/-- Lines 63-87: parse the reply body and relay it. A body parsing to
JSON null makes the parsed.id read throw, which the same catch turns into
the non-JSON path. -/
def relayBody (msg : Json) (body : String) : Effects :=
  match parseJson body with
  | none => nonJsonEffects msg body
  | some .null => nonJsonEffects msg body
  | some parsed =>
    match getFieldPrim parsed "id" with
    | none => repairOrDrop msg parsed
    | some .null => repairOrDrop msg parsed
    | some _ => { stdout := [body], stderr := [] }

/-- Lines 49-101: the whole outcome handling for one dispatched message.
Status 204 reads no body; an empty body is falsy and produces nothing. -/
def dispatch (msg : Json) (outcome : Outcome) : Effects :=
  match outcome with
  | .failure e =>
    if idNonNull msg then
      { stdout := [stringify (bridgeErrorObj (msgId msg) e)],
        stderr := ["[bridge] Request failed: " ++ e] }
    else { stdout := [], stderr := ["[bridge] Request failed: " ++ e] }
  | .success status body =>
    if status = 204 then { stdout := [], stderr := [] }
    else if body = "" then { stdout := [], stderr := [] }
    else relayBody msg body

/-- How one raw input line is treated before any HTTP work. -/
inductive Classified where
  | discard : Classified
  | crash : Classified
  | dispatchMsg (msg : Json) : Classified
  deriving Inhabited

/-- Lines 38-47: JSON.parse failure discards the line; reading .method on
a line whose JSON value is null throws a TypeError, which escapes the
async handler as an unhandled rejection; a falsy method discards. -/
def classify (raw : String) : Classified :=
  match parseJson raw with
  | none => .discard
  | some .null => .crash
  | some msg =>
    if jsTruthyOpt (getFieldPrim msg "method") then .dispatchMsg msg
    else .discard

/-- Result of handleMessage for one line, given the HTTP outcome the
exchange would have. -/
inductive HandleResult where
  | discarded : HandleResult
  | crashed : HandleResult
  | dispatched (eff : Effects) : HandleResult
  deriving DecidableEq, Inhabited

/-- handleMessage (lines 37-106), with the exchange outcome supplied. -/
def handleMessage (raw : String) (outcome : Outcome) : HandleResult :=
  match classify raw with
  | .discard => .discarded
  | .crash => .crashed
  | .dispatchMsg msg => .dispatched (dispatch msg outcome)

/-
Lifecycle (src/index.js lines 30-35, 47, 102-113): pending counts
in-flight exchanges, stdinClosed records the readline close event, and
maybeExit exits with code 0 exactly when both conditions hold. The crash
on a null line exits with code 1 (the Node default for an unhandled
rejection). dispatches counts exchanges ever started, to state that no
network call happens on given paths.
-/

/-- The process-wide mutable state, plus the exit record. -/
structure LifeState where
  pending : Int
  stdinClosed : Bool
  exited : Option Nat
  dispatches : Nat
  deriving DecidableEq, Inhabited

/-- State at process start. -/
def initState : LifeState :=
  { pending := 0, stdinClosed := false, exited := none, dispatches := 0 }

/-- maybeExit (lines 33-35): process.exit(0) when stdin has closed and
nothing is pending. -/
def maybeExit (s : LifeState) : LifeState :=
  if s.stdinClosed ∧ s.pending = 0 then { s with exited := some 0 } else s

/-- Externally visible events: an input line arrives, some in-flight
exchange completes (the finally block, lines 102-105), stdin closes
(lines 110-113). -/
inductive PEv where
  | line (raw : String) : PEv
  | complete : PEv
  | close : PEv
  deriving DecidableEq, Inhabited

/-- One event against the process state. A dead process changes no
further. A line is classified: a discard leaves the state alone, the
null-line TypeError crashes the process with code 1, a dispatched message
increments pending before its exchange starts (line 47). A completion
runs the finally block: decrement, then maybeExit. Closure sets the flag,
then maybeExit. -/
def pstep (s : LifeState) : PEv → LifeState
  | .line raw =>
    if s.exited.isSome then s
    else
      match classify raw with
      | .discard => s
      | .crash => { s with exited := some 1 }
      | .dispatchMsg _ =>
        { s with pending := s.pending + 1, dispatches := s.dispatches + 1 }
  | .complete =>
    if s.exited.isSome then s else maybeExit { s with pending := s.pending - 1 }
  | .close =>
    if s.exited.isSome then s else maybeExit { s with stdinClosed := true }

/-- A run of the event-driven loop from process start. -/
def prun (evs : List PEv) : LifeState :=
  evs.foldl pstep initState

/-- The startup check (lines 16-22): a falsy url argument (absent or the
empty string) exits with code 1 before any line is read. -/
def urlSupplied (url : Option String) : Bool :=
  match url with
  | some u => u != ""
  | none => false

/-- The whole process: either the fatal startup exit, or the event loop. -/
def program (url : Option String) (evs : List PEv) : LifeState :=
  if urlSupplied url then prun evs
  else { pending := 0, stdinClosed := false, exited := some 1, dispatches := 0 }

/-
Credential builder (lines 24-26) and request headers (lines 50-51).
-/

/-- UTF-8 bytes of one unicode scalar. -/
def utf8EncodeCharNat (c : Char) : List Nat :=
  let n := c.toNat
  if n < 128 then [n]
  else if n < 2048 then [192 + n / 64, 128 + n % 64]
  else if n < 65536 then [224 + n / 4096, 128 + (n / 64) % 64, 128 + n % 64]
  else [240 + n / 262144, 128 + (n / 4096) % 64, 128 + (n / 64) % 64, 128 + n % 64]

/-- UTF-8 bytes of a string (Buffer.from with the default encoding). -/
def utf8Bytes (s : String) : List Nat :=
  (s.data.map utf8EncodeCharNat).flatten

/-- The standard base64 alphabet. -/
def b64Char (n : Nat) : Char :=
  ("ABCDEFGHIJKLMNOPQRSTUVWXYZabcdefghijklmnopqrstuvwxyz0123456789+/".data).getD n 'A'

/-- Base64 of a byte list, three bytes to four characters, padded with =. -/
def base64Chunks : List Nat → List Char
  | b1 :: b2 :: b3 :: rest =>
    b64Char (b1 / 4) :: b64Char ((b1 % 4) * 16 + b2 / 16) ::
      b64Char ((b2 % 16) * 4 + b3 / 64) :: b64Char (b3 % 64) :: base64Chunks rest
  | [b1, b2] => [b64Char (b1 / 4), b64Char ((b1 % 4) * 16 + b2 / 16),
                 b64Char ((b2 % 16) * 4), '=']
  | [b1] => [b64Char (b1 / 4), b64Char ((b1 % 4) * 16), '=', '=']
  | [] => []

/-- Buffer.toString with base64. -/
def base64Encode (bs : List Nat) : String :=
  String.mk (base64Chunks bs)

/-- authHeader (lines 24-26): password ? "Basic " + base64(...) : null.
The password is the optional third argv entry; the conditional tests
JavaScript truthiness, so an absent password and the empty string both
yield null. Computed once, before any line is read. -/
def authHeader (password : Option String) : Option String :=
  match password with
  | some p =>
    if p != "" then some ("Basic " ++ base64Encode (utf8Bytes ("user:" ++ p)))
    else none
  | none => none

/-- The headers of every POST (lines 50-51): content type always, the
authorization header exactly when authHeader produced one. -/
def requestHeaders (password : Option String) : List (String × String) :=
  ("Content-Type", "application/json") ::
    (match authHeader password with
     | some a => [("Authorization", a)]
     | none => [])

/-
Concrete fixtures used by witnesses and counterexamples.
-/

/-- A request with id 1. -/
def msgPing : Json :=
  Json.obj [("jsonrpc", .str "2.0"), ("id", .num 1), ("method", .str "ping")]

/-- A request with id 0 (spec scenario 3). -/
def msgZero : Json :=
  Json.obj [("jsonrpc", .str "2.0"), ("id", .num 0), ("method", .str "ping")]

/-- A notification: no id key at all. -/
def msgNote : Json :=
  Json.obj [("jsonrpc", .str "2.0"), ("method", .str "note")]

/-- A message whose id key is present with value null. -/
def msgNullId : Json :=
  Json.obj [("method", .str "x"), ("id", .null)]

/-- An upstream reply that omits the id. -/
def replyNoId : Json :=
  Json.obj [("jsonrpc", .str "2.0"), ("result", .obj [])]

/-- An upstream reply carrying its own concrete id 2. -/
def replyOtherId : Json :=
  Json.obj [("jsonrpc", .str "2.0"), ("id", .num 2), ("result", .num 7)]

/-
Helper lemmas.
-/

/-- Setting a field makes it the value found by lookup. -/
theorem lookupField_setField (fs : List (String × Json)) (k : String) (v : Json) :
    lookupField (setField fs k v) k = some v := by
  induction fs with
  | nil => simp [setField, lookupField]
  | cons p rest ih =>
    obtain ⟨k0, v0⟩ := p
    by_cases h : k0 = k
    · simp [setField, lookupField, h]
    · simp [setField, lookupField, h, ih]

/-- The empty string is not JSON. -/
theorem parseJson_empty : parseJson "" = none := rfl

/-- A string that parses is not empty. -/
theorem parse_some_ne_empty {body : String} {j : Json}
    (hp : parseJson body = some j) : body ≠ "" := by
  intro h
  rw [h] at hp
  rw [parseJson_empty] at hp
  exact Option.noConfusion hp

/-- A state from which an exit with code 0 implies the drain condition. -/
def exitZeroSound (s : LifeState) : Prop :=
  s.exited = some 0 → s.stdinClosed = true ∧ s.pending = 0

/-- maybeExit preserves the drain-condition soundness. -/
theorem maybeExit_sound (s : LifeState) (h : exitZeroSound s) :
    exitZeroSound (maybeExit s) := by
  unfold exitZeroSound maybeExit
  split
  · rename_i hc
    intro _
    exact ⟨hc.1, hc.2⟩
  · exact h

/-- If maybeExit leaves the drain condition true, it has exited 0. -/
theorem maybeExit_check (s : LifeState) :
    ((maybeExit s).stdinClosed = true ∧ (maybeExit s).pending = 0) →
      (maybeExit s).exited = some 0 := by
  unfold maybeExit
  split
  · intro _; rfl
  · rename_i hcond
    intro hc
    exact absurd ⟨hc.1, hc.2⟩ hcond

/-- Every event preserves soundness of a code-0 exit. -/
theorem pstep_sound (s : LifeState) (e : PEv) (h : exitZeroSound s) :
    exitZeroSound (pstep s e) := by
  cases e with
  | line raw =>
    by_cases hs : s.exited.isSome = true
    · simpa [pstep, hs] using h
    · cases hc : classify raw with
      | discard => simpa [pstep, hs, hc] using h
      | crash => simp [pstep, hs, hc, exitZeroSound]
      | dispatchMsg m =>
        simp only [pstep, hs, hc, if_neg, Bool.false_eq_true, if_false]
        intro hx
        exact absurd (by rw [show s.exited = some 0 from hx]; rfl) hs
  | complete =>
    by_cases hs : s.exited.isSome = true
    · simpa [pstep, hs] using h
    · have h2 : exitZeroSound { s with pending := s.pending - 1 } := by
        intro hx
        exact absurd (by rw [show s.exited = some 0 from hx]; rfl) hs
      simpa [pstep, hs] using maybeExit_sound _ h2
  | close =>
    by_cases hs : s.exited.isSome = true
    · simpa [pstep, hs] using h
    · have h2 : exitZeroSound { s with stdinClosed := true } := by
        intro hx
        exact absurd (by rw [show s.exited = some 0 from hx]; rfl) hs
      simpa [pstep, hs] using maybeExit_sound _ h2

/-- Soundness of a code-0 exit along any event list. -/
theorem foldl_sound (evs : List PEv) :
    ∀ s : LifeState, exitZeroSound s → exitZeroSound (evs.foldl pstep s) := by
  induction evs with
  | nil => intro s h; exact h
  | cons e rest ih => intro s h; exact ih _ (pstep_sound s e h)

/-
Claim theorems.
-/

/-- Claim C10: a completed exchange whose body is empty emits no output
line and no diagnostic, whatever the status code, also when the original
message was a request. -/
theorem C10_thm (msg : Json) (status : Nat) :
    dispatch msg (.success status "") = { stdout := [], stderr := [] } := by
  unfold dispatch
  by_cases h : status = 204 <;> simp [h]

/-- Claim C4: on a transport failure, a request gets exactly the
synthesized bridge-error object on stdout and the diagnostic on stderr; a
notification gets only the stderr diagnostic and nothing on stdout. -/
theorem C4_thm (msg : Json) (e : String) :
    (idNonNull msg = true →
        dispatch msg (.failure e) =
          { stdout := [stringify (bridgeErrorObj (msgId msg) e)],
            stderr := ["[bridge] Request failed: " ++ e] })
  ∧ (idNonNull msg = false →
        dispatch msg (.failure e) =
          { stdout := [], stderr := ["[bridge] Request failed: " ++ e] }) := by
  constructor <;> intro h <;> simp [dispatch, h]

/-- Claim C4, witness: the request with id 1 under a connection failure. -/
theorem C4_witness :
    dispatch msgPing (.failure "connect ECONNREFUSED") =
      { stdout := [stringify (bridgeErrorObj (msgId msgPing) "connect ECONNREFUSED")],
        stderr := ["[bridge] Request failed: " ++ "connect ECONNREFUSED"] } :=
  (C4_thm msgPing "connect ECONNREFUSED").1 rfl

/-- Claim C7, counterexample: an explicitly supplied empty secret produces
no authorization header, although the claim promises one for every
supplied secret string including the empty one. -/
theorem C7_cex :
    authHeader (some "") = none ∧
      authHeader (some "") ≠
        some ("Basic " ++ base64Encode (utf8Bytes ("user:" ++ ""))) := by
  constructor
  · rfl
  · intro h
    exact Option.noConfusion h

/-- Claim C7, amended: the credential builder yields the header
Basic base64(user:secret) for every nonempty secret; an absent secret and
the empty-string secret both yield no header. The value is a pure
function of the startup secret, hence fixed for the process lifetime. -/
theorem C7_thm :
    (∀ p : String,
        authHeader (some p) =
          if p = "" then none
          else some ("Basic " ++ base64Encode (utf8Bytes ("user:" ++ p))))
  ∧ authHeader none = none
  ∧ (∀ p : String, p ≠ "" →
        requestHeaders (some p) =
          [("Content-Type", "application/json"),
           ("Authorization", "Basic " ++ base64Encode (utf8Bytes ("user:" ++ p)))]) := by
  refine ⟨?_, rfl, ?_⟩
  · intro p
    by_cases h : p = "" <;> simp [authHeader, h]
  · intro p h
    simp [requestHeaders, authHeader, h]

/-- Claim C7, witness for the amended claim at the secret sent by the
conformance setup. -/
theorem C7_witness :
    requestHeaders (some "secret") =
      [("Content-Type", "application/json"),
       ("Authorization", "Basic " ++ base64Encode (utf8Bytes ("user:" ++ "secret")))] :=
  C7_thm.2.2 "secret" (by decide)

/-- Claim C2, counterexample: a message whose id key is present with
value null is not treated as a request: a transport failure and a
non-JSON reply both produce no output for it, although the claim says any
present id, null included, makes it a request. -/
theorem C2_cex :
    getFieldPrim msgNullId "id" = some Json.null
  ∧ idNonNull msgNullId = false
  ∧ (dispatch msgNullId (.failure "network down")).stdout = []
  ∧ (dispatch msgNullId (.success 200 "garbage")).stdout = [] :=
  ⟨rfl, rfl, rfl, rfl⟩

/-- Claim C2, amended: a parsed message is treated as a request exactly
when its id key is present with a non-null value, and as a notification
exactly when the id key is absent or null; among non-null values the
classification is independent of truthiness (0, the empty string and
false all classify as requests). -/
theorem C2_thm (msg : Json) :
    (idNonNull msg = true ↔
        ∃ v, getFieldPrim msg "id" = some v ∧ v ≠ Json.null)
  ∧ (idNonNull msg = false ↔
        (getFieldPrim msg "id" = none ∨ getFieldPrim msg "id" = some Json.null))
  ∧ (∀ fs : List (String × Json), ∀ v : Json, v ≠ Json.null →
        idNonNull (Json.obj (setField fs "id" v)) = true) := by
  refine ⟨?_, ?_, ?_⟩
  · unfold idNonNull
    rcases hv : getFieldPrim msg "id" with _ | v
    · simp
    · cases v <;> simp
  · unfold idNonNull
    rcases hv : getFieldPrim msg "id" with _ | v
    · simp
    · cases v <;> simp
  · intro fs v hv
    unfold idNonNull
    rw [show getFieldPrim (Json.obj (setField fs "id" v)) "id"
          = some v from lookupField_setField fs "id" v]
    cases v with
    | null => exact absurd rfl hv
    | bool b => rfl
    | num n => rfl
    | str s => rfl
    | arr xs => rfl
    | obj fs2 => rfl

/-- Claim C2, witness: id 0 present classifies as a request. -/
theorem C2_witness :
    idNonNull (Json.obj (setField [("method", Json.str "ping")] "id" (Json.num 0))) = true :=
  (C2_thm (Json.obj (setField [("method", Json.str "ping")] "id" (Json.num 0)))).2.2
    [("method", Json.str "ping")] (Json.num 0) (by simp)

/-- Claim C6: the event loop exits with code 0 only when stdin has closed
and the pending count is zero; the check runs after every completion
decrement and after the closure signal; a stream that closes with zero
lines produced exits 0 at once. -/
theorem C6_thm :
    (∀ evs : List PEv, (prun evs).exited = some 0 →
        (prun evs).stdinClosed = true ∧ (prun evs).pending = 0)
  ∧ (∀ s : LifeState, s.exited = none →
        (((pstep s .complete).stdinClosed = true ∧ (pstep s .complete).pending = 0) →
            (pstep s .complete).exited = some 0)
      ∧ (((pstep s .close).stdinClosed = true ∧ (pstep s .close).pending = 0) →
            (pstep s .close).exited = some 0))
  ∧ (prun [PEv.close]).exited = some 0 := by
  refine ⟨?_, ?_, rfl⟩
  · intro evs
    exact foldl_sound evs initState (fun hx => Option.noConfusion hx)
  · intro s hs
    have h2 : s.exited.isSome = false := by rw [hs]; rfl
    constructor
    · simpa [pstep, h2] using maybeExit_check { s with pending := s.pending - 1 }
    · simpa [pstep, h2] using maybeExit_check { s with stdinClosed := true }

/-- Claim C6, witness: the zero-line run that closes immediately. -/
theorem C6_witness :
    (prun [PEv.close]).stdinClosed = true ∧ (prun [PEv.close]).pending = 0 :=
  C6_thm.1 [PEv.close] rfl

/-- Claim C8: the code crashes on the input line null. Parsing succeeds
with the JSON value null, then reading the method property throws a
TypeError inside the async handler, an unhandled rejection that
terminates the process with code 1 instead of discarding the line; truly
unparsable lines are discarded silently and the process continues. -/
theorem C8_thm :
    classify "null" = Classified.crash
  ∧ handleMessage "null" (.failure "x") = HandleResult.crashed
  ∧ (prun [PEv.line "null"]).exited = some 1
  ∧ handleMessage "%% not json" (.failure "x") = HandleResult.discarded
  ∧ (prun [PEv.line "%% not json", PEv.close]).exited = some 0 :=
  ⟨rfl, rfl, rfl, rfl, rfl⟩

/-- Claim C9: a missing endpoint argument exits nonzero with no exchange
ever dispatched; but the startup error is not the only abnormal
termination: with a valid url, the single input line null terminates the
process with code 1 while the stream is still open. -/
theorem C9_thm :
    (∀ evs : List PEv,
        (program none evs).exited = some 1 ∧ (program none evs).dispatches = 0)
  ∧ (program (some "https://example.com/mcp") [PEv.line "null"]).exited = some 1
  ∧ (program (some "https://example.com/mcp") [PEv.line "null"]).stdinClosed = false
  ∧ (program (some "https://example.com/mcp") [PEv.line "null"]).dispatches = 0 :=
  ⟨fun _ => ⟨rfl, rfl⟩, rfl, rfl, rfl⟩

/-- Claim C5, counterexample: a notification whose upstream reply body is
not JSON produces no stderr diagnostic at all, although the claim says
the truncated diagnostic is logged in the notification case too. -/
theorem C5_cex :
    parseJson "upstream exploded" = none
  ∧ dispatch msgNote (.success 500 "upstream exploded") = { stdout := [], stderr := [] } :=
  ⟨rfl, rfl⟩

/-- Claim C5, amended: on a non-JSON reply body, a request gets the
synthesized error on stdout and the truncated (at most 200 character)
diagnostic on stderr; a notification gets nothing at all, on either
stream. -/
theorem C5_thm (msg : Json) (status : Nat) (body : String)
    (hs : status ≠ 204) (hb : body ≠ "") (hp : parseJson body = none) :
    (idNonNull msg = true →
        dispatch msg (.success status body) =
          { stdout := [stringify (nonJsonErrorObj (msgId msg))],
            stderr := ["[bridge] Non-JSON response: " ++ truncBody body] }
      ∧ (truncBody body).length ≤ 200)
  ∧ (idNonNull msg = false →
        dispatch msg (.success status body) = { stdout := [], stderr := [] }) := by
  have hlen : (truncBody body).length ≤ 200 := by
    show (body.data.take 200).length ≤ 200
    rw [List.length_take]
    exact min_le_left _ _
  constructor
  · intro h
    exact ⟨by simp [dispatch, hs, hb, relayBody, hp, nonJsonEffects, h], hlen⟩
  · intro h
    simp [dispatch, hs, hb, relayBody, hp, nonJsonEffects, h]

/-- Claim C5, witness: the request with id 1 against an HTML error page. -/
theorem C5_witness :
    dispatch msgPing (.success 500 "<html>oops</html>") =
      { stdout := [stringify (nonJsonErrorObj (msgId msgPing))],
        stderr := ["[bridge] Non-JSON response: " ++ truncBody "<html>oops</html>"] }
  ∧ (truncBody "<html>oops</html>").length ≤ 200 :=
  (C5_thm msgPing 500 "<html>oops</html>" (by decide) (by decide) rfl).1 rfl

/-- Claim C3: a reply body that parses as an object with a concrete id is
relayed byte-for-byte, newline-terminated; one whose id is absent or null
is re-emitted with exactly the original request id substituted when the
original was a request, and dropped when it was a notification. -/
theorem C3_thm (msg : Json) (status : Nat) (body : String) (fs : List (String × Json))
    (hs : status ≠ 204) (hp : parseJson body = some (.obj fs)) :
    ((∃ v, lookupField fs "id" = some v ∧ v ≠ Json.null) →
        (dispatch msg (.success status body)).stdout = [body]
      ∧ renderOut (dispatch msg (.success status body)).stdout = body ++ "\n")
  ∧ ((lookupField fs "id" = none ∨ lookupField fs "id" = some Json.null) →
        idNonNull msg = true →
        (dispatch msg (.success status body)).stdout
          = [stringify (setId (Json.obj fs) (msgId msg))]
      ∧ getFieldPrim (setId (Json.obj fs) (msgId msg)) "id" = some (msgId msg))
  ∧ ((lookupField fs "id" = none ∨ lookupField fs "id" = some Json.null) →
        idNonNull msg = false →
        (dispatch msg (.success status body)).stdout = []) := by
  have hb : body ≠ "" := parse_some_ne_empty hp
  have hd : dispatch msg (.success status body) = relayBody msg body := by
    simp [dispatch, hs, hb]
  refine ⟨?_, ?_, ?_⟩
  · rintro ⟨v, hv, hvn⟩
    have hrel : relayBody msg body = { stdout := [body], stderr := [] } := by
      unfold relayBody
      rw [hp]
      cases v with
      | null => exact absurd rfl hvn
      | bool b => simp [getFieldPrim, hv]
      | num n => simp [getFieldPrim, hv]
      | str s => simp [getFieldPrim, hv]
      | arr xs => simp [getFieldPrim, hv]
      | obj f2 => simp [getFieldPrim, hv]
    rw [hd, hrel]
    exact ⟨rfl, rfl⟩
  · intro hid hnn
    have hrel : relayBody msg body =
        { stdout := [stringify (setId (Json.obj fs) (msgId msg))], stderr := [] } := by
      unfold relayBody
      rw [hp]
      rcases hid with hid | hid <;> simp [getFieldPrim, hid, repairOrDrop, hnn]
    refine ⟨by rw [hd, hrel], ?_⟩
    show lookupField (setField fs "id" (msgId msg)) "id" = some (msgId msg)
    exact lookupField_setField fs "id" (msgId msg)
  · intro hid hnn
    have hrel : relayBody msg body = { stdout := [], stderr := [] } := by
      unfold relayBody
      rw [hp]
      rcases hid with hid | hid <;> simp [getFieldPrim, hid, repairOrDrop, hnn]
    rw [hd, hrel]

/-- Claim C3, witness: spec scenario 3, the request with id 0 whose reply
omits the id; the repaired output carries exactly id 0. -/
theorem C3_witness :
    (dispatch msgZero (.success 200 (stringify replyNoId))).stdout
      = [stringify (setId (Json.obj [("jsonrpc", Json.str "2.0"), ("result", Json.obj [])]) (msgId msgZero))]
  ∧ getFieldPrim (setId (Json.obj [("jsonrpc", Json.str "2.0"), ("result", Json.obj [])]) (msgId msgZero))
      "id" = some (msgId msgZero) :=
  (C3_thm msgZero 200 (stringify replyNoId)
      [("jsonrpc", Json.str "2.0"), ("result", Json.obj [])]
      (by decide) rfl).2.1 (Or.inl rfl) rfl

/-- Claim C1, counterexample: three concrete upstream outcomes refute the
claim as stated. A request whose exchange completes with an empty body
produces zero output lines, not one. A request whose reply carries its
own id 2 is relayed unchanged, so the output carries id 2 and not the
request id 1. A message with id null present, under a transport failure,
produces zero output lines although the claim counts any present id as a
request. -/
theorem C1_cex :
    idNonNull msgPing = true
  ∧ (dispatch msgPing (.success 200 "")).stdout = []
  ∧ (dispatch msgPing (.success 200 (stringify replyOtherId))).stdout = [stringify replyOtherId]
  ∧ getFieldPrim replyOtherId "id" = some (Json.num 2)
  ∧ msgId msgPing = Json.num 1
  ∧ Json.num 2 ≠ Json.num 1
  ∧ getFieldPrim msgNullId "id" = some Json.null
  ∧ (dispatch msgNullId (.failure "socket hang up")).stdout = [] := by
  refine ⟨rfl, rfl, rfl, rfl, rfl, ?_, rfl, rfl⟩
  simp

/-- Claim C1, amended: for a message dispatched as a request (id present
and non-null), exactly one output line is written when the exchange fails
in transport or completes with a status other than 204 and a non-empty
body, and zero output lines are written when it completes with status 204
or an empty body. A synthesized transport-failure line carries exactly
the original id; a relayed reply with its own concrete id is emitted
unchanged. -/
theorem C1_thm (msg : Json) (h : idNonNull msg = true) :
    (∀ e : String,
        (dispatch msg (.failure e)).stdout = [stringify (bridgeErrorObj (msgId msg) e)]
      ∧ getFieldPrim (bridgeErrorObj (msgId msg) e) "id" = some (msgId msg))
  ∧ (∀ status : Nat, (dispatch msg (.success status "")).stdout = [])
  ∧ (∀ body : String, (dispatch msg (.success 204 body)).stdout = [])
  ∧ (∀ status : Nat, ∀ body : String, status ≠ 204 → body ≠ "" →
        (dispatch msg (.success status body)).stdout.length = 1) := by
  refine ⟨?_, ?_, ?_, ?_⟩
  · intro e
    constructor
    · simp [dispatch, h]
    · simp [bridgeErrorObj, getFieldPrim, lookupField]
  · intro status
    by_cases h2 : status = 204 <;> simp [dispatch, h2]
  · intro body
    simp [dispatch]
  · intro status body hst hbo
    have hd : dispatch msg (.success status body) = relayBody msg body := by
      simp [dispatch, hst, hbo]
    rw [hd]
    unfold relayBody
    cases hpj : parseJson body with
    | none => simp [nonJsonEffects, h]
    | some parsed =>
      cases parsed with
      | null => simp [nonJsonEffects, h]
      | bool b => simp [getFieldPrim, repairOrDrop, h]
      | num n => simp [getFieldPrim, repairOrDrop, h]
      | str s => simp [getFieldPrim, repairOrDrop, h]
      | arr xs => simp [getFieldPrim, repairOrDrop, h]
      | obj fs =>
        simp only [getFieldPrim]
        cases hid : lookupField fs "id" with
        | none => simp [repairOrDrop, h]
        | some v => cases v <;> simp [repairOrDrop, h]

/-- Claim C1, witness: the request with id 1 under a non-JSON 500 reply
yields exactly one output line. -/
theorem C1_witness :
    (dispatch msgPing (.success 500 "oops")).stdout.length = 1 :=
  (C1_thm msgPing rfl).2.2.2 500 "oops" (by decide) (by decide)

end Bridge
